import Mathlib

/-!
Shallow embedding of `src/main.rs` of the wgpu-transparency repository:
a minimal wgpu render host.  Pure data (formats, descriptors, vertex
layout) becomes Lean structures; the stateful `State` methods become
functions `State → ... → State × List GpuEvent` where the event list
records the GPU-side calls the method issues, in the order the Rust
code issues them.  Floating-point literals in the source (clear values,
vertex coordinates) are embedded as exact rationals, which is faithful
because the program only stores these literals and never computes
with them.
-/

/-- `winit::dpi::PhysicalSize<u32>`. -/
structure PhysicalSize where
  width : Nat
  height : Nat
deriving DecidableEq, Repr

/-- The subset of `wgpu::TextureFormat` this program can encounter. -/
inductive TextureFormat where
  | rgba8Unorm
  | rgba8UnormSrgb
  | bgra8Unorm
  | bgra8UnormSrgb
  | depth24PlusStencil8
deriving DecidableEq, Repr

/-- `wgpu::TextureFormat::add_srgb_suffix`: map a format to its sRGB
variant when one exists, otherwise return it unchanged. -/
def TextureFormat.add_srgb_suffix : TextureFormat → TextureFormat
  | .rgba8Unorm => .rgba8UnormSrgb
  | .bgra8Unorm => .bgra8UnormSrgb
  | f => f

/-- `glam::Vec4` (the program only stores literal coordinates). -/
structure Vec4 where
  x : ℚ
  y : ℚ
  z : ℚ
  w : ℚ
deriving DecidableEq, Repr

/-- `Vec4::new`. -/
def Vec4.new (x y z w : ℚ) : Vec4 := ⟨x, y, z, w⟩

/-- `std::mem::size_of::<Vec4>()`: four 4-byte floats. -/
def Vec4.size_of : Nat := 4 * 4

/-- `VertexInput` from `src/main.rs`. -/
structure VertexInput where
  position : Vec4
  color : Vec4
deriving DecidableEq, Repr

/-- `std::mem::size_of::<VertexInput>()`: two `Vec4` fields, `repr(C)`. -/
def VertexInput.size_of : Nat := Vec4.size_of + Vec4.size_of

/-- The subset of `wgpu::VertexFormat` the program uses. -/
inductive VertexFormat where
  | float32x4
deriving DecidableEq, Repr

/-- Byte size of a vertex format (`wgpu::VertexFormat::size`). -/
def VertexFormat.size : VertexFormat → Nat
  | .float32x4 => 16

/-- `wgpu::VertexAttribute`. -/
structure VertexAttribute where
  format : VertexFormat
  offset : Nat
  shader_location : Nat
deriving DecidableEq, Repr

/-- `wgpu::VertexStepMode` (only the variant used). -/
inductive VertexStepMode where
  | vertex
deriving DecidableEq, Repr

/-- `wgpu::VertexBufferLayout`. -/
structure VertexBufferLayout where
  array_stride : Nat
  step_mode : VertexStepMode
  attributes : List VertexAttribute
deriving DecidableEq, Repr

/-- `VertexInput::ATTRIBUTES`, as the `vertex_attr_array!` macro expands
it: location 0 at offset 0, then each following attribute at the
accumulated offset of the preceding formats. -/
def VertexInput.ATTRIBUTES : List VertexAttribute :=
  [ { format := .float32x4, offset := 0, shader_location := 0 },
    { format := .float32x4, offset := VertexFormat.float32x4.size, shader_location := 1 } ]

/-- `VertexInput::desc`. -/
def VertexInput.desc : VertexBufferLayout :=
  { array_stride := VertexInput.size_of
    step_mode := .vertex
    attributes := VertexInput.ATTRIBUTES }

/-- `wgpu::TextureUsages` (only the flag used). -/
inductive TextureUsage where
  | renderAttachment
deriving DecidableEq, Repr

/-- `wgpu::CompositeAlphaMode` (only the variant used). -/
inductive CompositeAlphaMode where
  | preMultiplied
deriving DecidableEq, Repr

/-- `wgpu::PresentMode` (only the variant used). -/
inductive PresentMode where
  | autoVsync
deriving DecidableEq, Repr

/-- `wgpu::SurfaceConfiguration`. -/
structure SurfaceConfiguration where
  usage : TextureUsage
  format : TextureFormat
  view_formats : List TextureFormat
  alpha_mode : CompositeAlphaMode
  width : Nat
  height : Nat
  desired_maximum_frame_latency : Nat
  present_mode : PresentMode
deriving DecidableEq, Repr

/-- A created `wgpu::Texture`, tagged with a fresh identifier so that
distinct texture objects can be told apart in event traces. -/
structure Texture where
  id : Nat
  label : String
  width : Nat
  height : Nat
  depth_or_array_layers : Nat
  mip_level_count : Nat
  sample_count : Nat
  format : TextureFormat
  usage : TextureUsage
deriving DecidableEq, Repr

/-- `wgpu::CompareFunction` (only the variant used). -/
inductive CompareFunction where
  | less
deriving DecidableEq, Repr

/-- `wgpu::ColorTargetState`, as produced by `swapchain_format.into()`. -/
structure ColorTargetState where
  format : TextureFormat
deriving DecidableEq, Repr

/-- `wgpu::DepthStencilState` (the fields the program sets away from
defaults). -/
structure DepthStencilState where
  format : TextureFormat
  depth_write_enabled : Bool
  depth_compare : CompareFunction
deriving DecidableEq, Repr

/-- `wgpu::RenderPipelineDescriptor` (the fields the program sets). -/
structure RenderPipelineDescriptor where
  vertex_entry_point : String
  vertex_buffers : List VertexBufferLayout
  fragment_entry_point : String
  fragment_targets : List (Option ColorTargetState)
  depth_stencil : Option DepthStencilState
deriving DecidableEq, Repr

/-- A built `wgpu::RenderPipeline`: an identifier plus the descriptor it
was built from. -/
structure RenderPipeline where
  id : Nat
  desc : RenderPipelineDescriptor
deriving DecidableEq, Repr

/-- `wgpu::Color` with exact rational channels (`f64` in wgpu; the
program only ever uses the all-zero literal `TRANSPARENT`). -/
structure Color where
  r : ℚ
  g : ℚ
  b : ℚ
  a : ℚ
deriving DecidableEq, Repr

/-- `wgpu::Color::TRANSPARENT`. -/
def Color.TRANSPARENT : Color := ⟨0, 0, 0, 0⟩

/-- `wgpu::LoadOp`. -/
inductive LoadOp (α : Type) where
  | clear (v : α)
  | load
deriving DecidableEq, Repr

/-- `wgpu::StoreOp`. -/
inductive StoreOp where
  | store
  | discard
deriving DecidableEq, Repr

/-- `wgpu::Operations`. -/
structure Operations (α : Type) where
  load : LoadOp α
  store : StoreOp
deriving DecidableEq, Repr

/-- `wgpu::RenderPassColorAttachment`; `view` is the id of the texture
the attachment views. -/
structure RenderPassColorAttachment where
  view : Nat
  ops : Operations Color
deriving DecidableEq, Repr

/-- `wgpu::RenderPassDepthStencilAttachment`; `view` is the id of the
depth texture. -/
structure RenderPassDepthStencilAttachment where
  view : Nat
  depth_ops : Option (Operations ℚ)
  stencil_ops : Option (Operations Nat)
deriving DecidableEq, Repr

/-- `wgpu::RenderPassDescriptor` (the fields the program sets). -/
structure RenderPassDescriptor where
  color_attachments : List (Option RenderPassColorAttachment)
  depth_stencil_attachment : Option RenderPassDepthStencilAttachment
deriving DecidableEq, Repr

/-- One GPU- or window-side call issued by the program, recorded in the
order the Rust code issues it. -/
inductive GpuEvent where
  | createPipeline (desc : RenderPipelineDescriptor)
  | createBuffer (contents : List VertexInput)
  | configureSurface (cfg : SurfaceConfiguration)
  | createTexture (t : Texture)
  | releaseTexture (id : Nat)
  | acquireImage (texId : Nat)
  | createView (texId : Nat) (fmt : TextureFormat)
  | beginRenderPass (desc : RenderPassDescriptor)
  | setPipeline (id : Nat)
  | setBindGroup (index : Nat)
  | setVertexBuffer (slot : Nat)
  | draw (vstart vend istart iend : Nat)
  | endPass
  | submit
  | prePresentNotify
  | present (texId : Nat)
deriving DecidableEq, Repr

/-- `wgpu::SurfaceError`: the outcomes of `Surface::get_current_texture`
other than success. -/
inductive SurfaceError where
  | timeout
  | outdated
  | lost
  | outOfMemory
  | other
deriving DecidableEq, Repr

/-- The panics `State::render` can hit: the `.expect` on acquisition
and the `.unwrap` on `depth_texture`. -/
inductive RenderError where
  | acquirePanic (e : SurfaceError)
  | depthUnwrapPanic
deriving DecidableEq, Repr

/-- The panics `State::new` can hit before the pipeline is built: the
`.unwrap` on `request_adapter`, the `.unwrap` on `request_device`, and
the out-of-bounds index `formats[0]` on an empty capability list. -/
inductive InitError where
  | adapterRequestFailed
  | deviceRequestFailed
  | noSurfaceFormat
deriving DecidableEq, Repr

/-- The `State` struct from `src/main.rs`.  Window/device/queue handles
carry no data the program reads, so they are omitted; `surfaceConfig`
is the configuration currently in effect on the surface object (set by
`Surface::configure`), and `nextTextureId` is the fresh-name supply for
created textures. -/
structure State where
  surface_format : TextureFormat
  pipeline : RenderPipeline
  bind_group : Nat
  data_buffer : List VertexInput
  depth_texture : Option Texture
  depth_texture_format : TextureFormat
  size : PhysicalSize
  surfaceConfig : Option SurfaceConfiguration
  nextTextureId : Nat
deriving DecidableEq, Repr

/-- The `wgpu::SurfaceConfiguration` value `State::configure_surface`
passes to `Surface::configure`, built from the current state. -/
def State.surfaceConfigFor (s : State) : SurfaceConfiguration :=
  { usage := .renderAttachment
    format := s.surface_format
    view_formats := [s.surface_format.add_srgb_suffix]
    alpha_mode := .preMultiplied
    width := s.size.width
    height := s.size.height
    desired_maximum_frame_latency := 2
    present_mode := .autoVsync }

/-- The depth texture `State::configure_surface` creates with
`Device::create_texture`, built from the current state. -/
def State.newDepthTexture (s : State) : Texture :=
  { id := s.nextTextureId
    label := "Texture"
    width := s.size.width
    height := s.size.height
    depth_or_array_layers := 1
    mip_level_count := 1
    sample_count := 1
    format := s.depth_texture_format
    usage := .renderAttachment }

/-- `State::configure_surface`: configure the surface at the stored
size, create a new depth texture at that size, then overwrite
`depth_texture` (dropping — releasing — the previous texture, if any,
at the overwrite). -/
def State.configure_surface (s : State) : State × List GpuEvent :=
  let cfg := s.surfaceConfigFor
  let texture := s.newDepthTexture
  let release : List GpuEvent :=
    match s.depth_texture with
    | some old => [GpuEvent.releaseTexture old.id]
    | none => []
  ({ s with
      depth_texture := some texture
      surfaceConfig := some cfg
      nextTextureId := s.nextTextureId + 1 },
    GpuEvent.configureSurface cfg :: GpuEvent.createTexture texture :: release)

/-- `State::resize`: update the stored size and reconfigure only when
both dimensions are positive; otherwise do nothing. -/
def State.resize (s : State) (new_size : PhysicalSize) : State × List GpuEvent :=
  if new_size.width > 0 && new_size.height > 0 then
    ({ s with size := new_size }).configure_surface
  else
    (s, [])

/-- `State::render`.  `acquired` is the outcome of the external call
`Surface::get_current_texture` (on success, the id of the acquired
surface texture).  The `.expect` on acquisition and the `.unwrap` on
`depth_texture` become `Except.error`; on success the function returns
the ordered trace of calls the Rust body makes. -/
def State.render (s : State) (acquired : Except SurfaceError Nat) :
    Except RenderError (List GpuEvent) :=
  match acquired with
  | .error e => .error (.acquirePanic e)
  | .ok surfaceTexId =>
    match s.depth_texture with
    | none => .error .depthUnwrapPanic
    | some dt =>
      let render_pass_descriptor : RenderPassDescriptor :=
        { color_attachments :=
            [some { view := surfaceTexId
                    ops := { load := .clear Color.TRANSPARENT, store := .store } }]
          depth_stencil_attachment :=
            some { view := dt.id
                   depth_ops := some { load := .clear 1, store := .store }
                   stencil_ops := some { load := .clear 0, store := .store } } }
      .ok [ .acquireImage surfaceTexId,
            .createView surfaceTexId (s.surface_format.add_srgb_suffix),
            .createView dt.id dt.format,
            .beginRenderPass render_pass_descriptor,
            .setPipeline s.pipeline.id,
            .setBindGroup 0,
            .setVertexBuffer 0,
            .draw 0 3 0 1,
            .endPass,
            .submit,
            .prePresentNotify,
            .present surfaceTexId ]

/-- The three vertices uploaded by `State::new`. -/
def initialVertices : List VertexInput :=
  [ { position := Vec4.new 1 (-1) 0 1, color := Vec4.new 1 0 0 1 },
    { position := Vec4.new (-1) (-1) 0 1, color := Vec4.new 0 1 0 1 },
    { position := Vec4.new 0 1 0 1, color := Vec4.new 0 0 1 1 } ]

/-- `State::new`.  The external environment enters as parameters: whether
`request_adapter` and `request_device` succeed, and the color-format
capability list `surface.get_capabilities(&adapter).formats`.  Each
`.unwrap` (and the index `formats[0]`) becomes an `Except.error`; on
success the function returns the constructed state (after the final
`configure_surface` call) together with the trace of creation events. -/
def State.new (adapter : Option Unit) (device : Option Unit)
    (formats : List TextureFormat) (size : PhysicalSize) :
    Except InitError (State × List GpuEvent) :=
  match adapter with
  | none => .error .adapterRequestFailed
  | some _ =>
    match device with
    | none => .error .deviceRequestFailed
    | some _ =>
      match formats with
      | [] => .error .noSurfaceFormat
      | swapchain_format :: _ =>
        let depth_texture_format := TextureFormat.depth24PlusStencil8
        let pipelineDesc : RenderPipelineDescriptor :=
          { vertex_entry_point := "vertex_main"
            vertex_buffers := [VertexInput.desc]
            fragment_entry_point := "fragment_main"
            fragment_targets := [some { format := swapchain_format }]
            depth_stencil := some { format := depth_texture_format
                                    depth_write_enabled := true
                                    depth_compare := .less } }
        let render_pipeline : RenderPipeline := { id := 0, desc := pipelineDesc }
        let state0 : State :=
          { surface_format := swapchain_format
            pipeline := render_pipeline
            bind_group := 0
            data_buffer := initialVertices
            depth_texture := none
            depth_texture_format := depth_texture_format
            size := size
            surfaceConfig := none
            nextTextureId := 0 }
        let cfg := state0.configure_surface
        .ok (cfg.1,
          GpuEvent.createPipeline pipelineDesc ::
          GpuEvent.createBuffer initialVertices :: cfg.2)

/-- Fold a sequence of resize events over a state (the surface-resized
notifications the event loop feeds to `State::resize`, in order). -/
def State.resizeAll (s : State) (evs : List PhysicalSize) : State :=
  evs.foldl (fun st e => (st.resize e).1) s

/-- The guard of `State::resize`: both dimensions positive. -/
def sizeIsValid (sz : PhysicalSize) : Bool :=
  sz.width > 0 && sz.height > 0

/-- The last event of a resize sequence whose dimensions are both
positive, if any (recursive form; `lastValidSize_eq_filter` below checks
it against the filter-then-last description). -/
def lastValidSize : List PhysicalSize → Option PhysicalSize
  | [] => none
  | e :: rest =>
    match lastValidSize rest with
    | some l => some l
    | none => if sizeIsValid e then some e else none

/-- Does the event record a pipeline creation? -/
def GpuEvent.isCreatePipeline : GpuEvent → Bool
  | .createPipeline _ => true
  | _ => false

/-- Does the event record a texture creation? -/
def GpuEvent.isCreateTexture : GpuEvent → Bool
  | .createTexture _ => true
  | _ => false

/-- Does the event record a texture release? -/
def GpuEvent.isReleaseTexture : GpuEvent → Bool
  | .releaseTexture _ => true
  | _ => false

/-- Does the event record a surface configuration? -/
def GpuEvent.isConfigureSurface : GpuEvent → Bool
  | .configureSurface _ => true
  | _ => false

/-- Does the event record acquiring a presentable image? -/
def GpuEvent.isAcquire : GpuEvent → Bool
  | .acquireImage _ => true
  | _ => false

/-- Does the event record presenting an image? -/
def GpuEvent.isPresent : GpuEvent → Bool
  | .present _ => true
  | _ => false

/-- Does the event record a draw call? -/
def GpuEvent.isDraw : GpuEvent → Bool
  | .draw _ _ _ _ => true
  | _ => false

/-- Does the event record binding a vertex buffer? -/
def GpuEvent.isSetVertexBuffer : GpuEvent → Bool
  | .setVertexBuffer _ => true
  | _ => false

/-- Does the event record beginning a render pass? -/
def GpuEvent.isBeginRenderPass : GpuEvent → Bool
  | .beginRenderPass _ => true
  | _ => false

/-- Does the event record a queue submission? -/
def GpuEvent.isSubmit : GpuEvent → Bool
  | .submit => true
  | _ => false

/-- The pipeline descriptor `State::new` builds when the chosen surface
format is `Bgra8Unorm` (concrete sample for witnesses). -/
def samplePipelineDesc : RenderPipelineDescriptor :=
  { vertex_entry_point := "vertex_main"
    vertex_buffers := [VertexInput.desc]
    fragment_entry_point := "fragment_main"
    fragment_targets := [some { format := .bgra8Unorm }]
    depth_stencil := some { format := .depth24PlusStencil8
                            depth_write_enabled := true
                            depth_compare := .less } }

/-- The surface configuration `State::new` applies for an 800×600
window with format `Bgra8Unorm` (concrete sample for witnesses). -/
def sampleConfig : SurfaceConfiguration :=
  { usage := .renderAttachment
    format := .bgra8Unorm
    view_formats := [.bgra8UnormSrgb]
    alpha_mode := .preMultiplied
    width := 800
    height := 600
    desired_maximum_frame_latency := 2
    present_mode := .autoVsync }

/-- The depth texture `State::new` allocates for an 800×600 window
(concrete sample for witnesses). -/
def sampleDepthTexture : Texture :=
  { id := 0
    label := "Texture"
    width := 800
    height := 600
    depth_or_array_layers := 1
    mip_level_count := 1
    sample_count := 1
    format := .depth24PlusStencil8
    usage := .renderAttachment }

/-- The state `State::new` produces for an 800×600 window whose surface
capability list is `[Bgra8Unorm]` (concrete sample for witnesses). -/
def sampleState : State :=
  { surface_format := .bgra8Unorm
    pipeline := { id := 0, desc := samplePipelineDesc }
    bind_group := 0
    data_buffer := initialVertices
    depth_texture := some sampleDepthTexture
    depth_texture_format := .depth24PlusStencil8
    size := ⟨800, 600⟩
    surfaceConfig := some sampleConfig
    nextTextureId := 1 }

/-- The creation-event trace `State::new` produces in the sample run
(concrete sample for witnesses). -/
def sampleEvents : List GpuEvent :=
  [ .createPipeline samplePipelineDesc,
    .createBuffer initialVertices,
    .configureSurface sampleConfig,
    .createTexture sampleDepthTexture ]

/-! ## Supporting lemmas -/

theorem getLast?_cons_getD {α : Type} (a : α) (l : List α) :
    (a :: l).getLast? = some (l.getLast?.getD a) := by
  induction l generalizing a with
  | nil => rfl
  | cons b t ih => rw [List.getLast?_cons_cons]; simp [ih]

/-- `lastValidSize` agrees with filtering the sequence to its valid
events and taking the last one. -/
theorem lastValidSize_eq_filter (evs : List PhysicalSize) :
    lastValidSize evs = (evs.filter sizeIsValid).getLast? := by
  induction evs with
  | nil => rfl
  | cons e rest ih =>
    by_cases h : sizeIsValid e
    · rw [List.filter_cons_of_pos h, getLast?_cons_getD, ← ih]
      cases hl : lastValidSize rest <;> simp [lastValidSize, hl, h]
    · rw [List.filter_cons_of_neg (by simpa using h), ← ih]
      cases hl : lastValidSize rest <;>
        simp [lastValidSize, hl, Bool.of_not_eq_true h]

theorem configure_surface_fst (s : State) :
    (s.configure_surface).1 =
      { s with depth_texture := some s.newDepthTexture
               surfaceConfig := some s.surfaceConfigFor
               nextTextureId := s.nextTextureId + 1 } := rfl

theorem resizeAll_nil (s : State) : s.resizeAll [] = s := rfl

theorem resizeAll_cons (s : State) (e : PhysicalSize) (evs : List PhysicalSize) :
    s.resizeAll (e :: evs) = ((s.resize e).1).resizeAll evs := rfl

theorem resize_fst_surface_format (s : State) (e : PhysicalSize) :
    ((s.resize e).1).surface_format = s.surface_format := by
  by_cases h : e.width > 0 && e.height > 0 <;>
    simp [State.resize, h, configure_surface_fst]

theorem resize_fst_pipeline (s : State) (e : PhysicalSize) :
    ((s.resize e).1).pipeline = s.pipeline := by
  by_cases h : e.width > 0 && e.height > 0 <;>
    simp [State.resize, h, configure_surface_fst]

theorem resize_fst_depth_isSome (s : State) (e : PhysicalSize)
    (h : s.depth_texture.isSome = true) :
    ((s.resize e).1).depth_texture.isSome = true := by
  by_cases hp : e.width > 0 && e.height > 0 <;>
    simp [State.resize, hp, configure_surface_fst, h]

theorem resizeAll_pipeline (evs : List PhysicalSize) : ∀ s : State,
    (s.resizeAll evs).pipeline = s.pipeline := by
  induction evs with
  | nil => intro s; rfl
  | cons e rest ih =>
    intro s
    rw [resizeAll_cons, ih, resize_fst_pipeline]

theorem resizeAll_depth_isSome (evs : List PhysicalSize) : ∀ s : State,
    s.depth_texture.isSome = true →
    (s.resizeAll evs).depth_texture.isSome = true := by
  induction evs with
  | nil => intro s h; exact h
  | cons e rest ih =>
    intro s h
    rw [resizeAll_cons]
    exact ih _ (resize_fst_depth_isSome s e h)

theorem resizeAll_size_config (evs : List PhysicalSize) : ∀ s : State,
    (s.resizeAll evs).size = (lastValidSize evs).getD s.size ∧
    (s.resizeAll evs).surfaceConfig =
      (match lastValidSize evs with
       | some e => some (State.surfaceConfigFor { s with size := e })
       | none => s.surfaceConfig) := by
  induction evs with
  | nil => intro s; exact ⟨rfl, rfl⟩
  | cons e rest ih =>
    intro s
    by_cases h : e.width > 0 && e.height > 0
    · rw [resizeAll_cons]
      have hres : (s.resize e).1 =
          { s with size := e
                   depth_texture := some (State.newDepthTexture { s with size := e })
                   surfaceConfig := some (State.surfaceConfigFor { s with size := e })
                   nextTextureId := s.nextTextureId + 1 } := by
        simp [State.resize, h, configure_surface_fst]
      rw [hres]
      obtain ⟨h1, h2⟩ := ih _
      rw [h1, h2]
      cases hl : lastValidSize rest <;>
        simp [lastValidSize, hl, sizeIsValid, h, State.surfaceConfigFor]
    · rw [resizeAll_cons]
      have hres : (s.resize e).1 = s := by simp [State.resize, h]
      rw [hres]
      obtain ⟨h1, h2⟩ := ih s
      rw [h1, h2]
      cases hl : lastValidSize rest <;>
        simp [lastValidSize, hl, sizeIsValid, h]

/-! ## Claim theorems -/

/-- C1: for every sequence of resize events applied via `State.resize`,
the stored size and the surface configuration in effect afterwards come
from the last event of the sequence whose width and height were both
positive (they are unchanged when no such event exists); moreover a
resize event with a zero width or zero height leaves the state — stored
size and surface configuration included — completely unchanged and
issues no GPU calls. -/
theorem resize_sequence_last_valid (s : State) (evs : List PhysicalSize)
    (z : PhysicalSize) (hz : sizeIsValid z = false) :
    (s.resizeAll evs).size = (lastValidSize evs).getD s.size ∧
    (s.resizeAll evs).surfaceConfig =
      (match lastValidSize evs with
       | some e => some (State.surfaceConfigFor { s with size := e })
       | none => s.surfaceConfig) ∧
    s.resize z = (s, []) := by
  obtain ⟨h1, h2⟩ := resizeAll_size_config evs s
  refine ⟨h1, h2, ?_⟩
  simp [State.resize, show (z.width > 0 && z.height > 0) = false from hz]

theorem resize_sequence_last_valid_witness :
    sizeIsValid ⟨0, 600⟩ = false ∧
    ((sampleState.resizeAll [⟨0, 400⟩, ⟨1024, 768⟩, ⟨0, 0⟩]).size =
        (lastValidSize [⟨0, 400⟩, ⟨1024, 768⟩, ⟨0, 0⟩]).getD sampleState.size ∧
      (sampleState.resizeAll [⟨0, 400⟩, ⟨1024, 768⟩, ⟨0, 0⟩]).surfaceConfig =
        (match lastValidSize [⟨0, 400⟩, ⟨1024, 768⟩, ⟨0, 0⟩] with
         | some e => some (State.surfaceConfigFor { sampleState with size := e })
         | none => sampleState.surfaceConfig) ∧
      sampleState.resize ⟨0, 600⟩ = (sampleState, [])) :=
  ⟨by decide,
   resize_sequence_last_valid sampleState [⟨0, 400⟩, ⟨1024, 768⟩, ⟨0, 0⟩]
     ⟨0, 600⟩ (by decide)⟩

/-- C2: after any call to `configure_surface`, the depth texture's
width and height equal the stored size — which is also exactly the
width and height the surface was just configured with — so the color
and depth attachment sizes agree. -/
theorem configure_surface_depth_matches (s : State) :
    ((s.configure_surface).1.depth_texture.map fun t => (t.width, t.height))
        = some (s.size.width, s.size.height) ∧
    ((s.configure_surface).1.surfaceConfig.map fun c => (c.width, c.height))
        = some (s.size.width, s.size.height) := by
  simp [configure_surface_fst, State.newDepthTexture, State.surfaceConfigFor]

/-- C4: every acquisition failure makes `render` halt fatally with the
acquisition panic, uniformly for every `SurfaceError` variant — the
recoverable `Outdated` condition included — and no GPU call (no
reconfigure, no retry of the acquire) is made on that path. -/
theorem render_acquire_failure_fatal (s : State) (e : SurfaceError) :
    s.render (.error e) = .error (.acquirePanic e) := rfl

/-- C8: the vertex layout declared at pipeline-build time has a fixed
32-byte stride with exactly two 4-component float attributes: position
at byte offset 0 (shader location 0) and color at byte offset 16
(shader location 1), stepped per vertex. -/
theorem vertex_layout_fixed :
    VertexInput.desc.array_stride = 32 ∧
    VertexInput.desc.step_mode = .vertex ∧
    VertexInput.desc.attributes =
      [ { format := .float32x4, offset := 0, shader_location := 0 },
        { format := .float32x4, offset := 16, shader_location := 1 } ] :=
  ⟨rfl, rfl, rfl⟩

/-- C3: a successful `render` performs exactly one frame in the strict
order: acquire the presentable image, construct its view (and the depth
view), record one render pass, submit, call the window's pre-present
notification, then present the acquired image last; the acquired image
is presented exactly once and no step is reordered or repeated. -/
theorem render_frame_order (s : State) (dt : Texture) (texId : Nat)
    (h : s.depth_texture = some dt) :
    s.render (.ok texId) = .ok
      [ .acquireImage texId,
        .createView texId (s.surface_format.add_srgb_suffix),
        .createView dt.id dt.format,
        .beginRenderPass
          { color_attachments :=
              [some { view := texId
                      ops := { load := .clear Color.TRANSPARENT, store := .store } }]
            depth_stencil_attachment :=
              some { view := dt.id
                     depth_ops := some { load := .clear 1, store := .store }
                     stencil_ops := some { load := .clear 0, store := .store } } },
        .setPipeline s.pipeline.id,
        .setBindGroup 0,
        .setVertexBuffer 0,
        .draw 0 3 0 1,
        .endPass,
        .submit,
        .prePresentNotify,
        .present texId ] ∧
    ∀ tr, s.render (.ok texId) = .ok tr →
      tr.countP GpuEvent.isAcquire = 1 ∧
      tr.countP GpuEvent.isPresent = 1 ∧
      tr.countP GpuEvent.isSubmit = 1 ∧
      tr.getLast? = some (.present texId) ∧
      tr.head? = some (.acquireImage texId) := by
  have hr : s.render (.ok texId) = .ok
      [ .acquireImage texId,
        .createView texId (s.surface_format.add_srgb_suffix),
        .createView dt.id dt.format,
        .beginRenderPass
          { color_attachments :=
              [some { view := texId
                      ops := { load := .clear Color.TRANSPARENT, store := .store } }]
            depth_stencil_attachment :=
              some { view := dt.id
                     depth_ops := some { load := .clear 1, store := .store }
                     stencil_ops := some { load := .clear 0, store := .store } } },
        .setPipeline s.pipeline.id,
        .setBindGroup 0,
        .setVertexBuffer 0,
        .draw 0 3 0 1,
        .endPass,
        .submit,
        .prePresentNotify,
        .present texId ] := by
    simp [State.render, h]
  refine ⟨hr, ?_⟩
  intro tr htr
  rw [hr] at htr
  injection htr with htr
  subst htr
  refine ⟨?_, ?_, ?_, ?_, ?_⟩ <;>
    simp [List.countP_cons, GpuEvent.isAcquire, GpuEvent.isPresent,
      GpuEvent.isSubmit]

theorem render_frame_order_witness :
    sampleState.depth_texture = some sampleDepthTexture ∧
    (sampleState.render (.ok 5) = .ok
      [ .acquireImage 5,
        .createView 5 (sampleState.surface_format.add_srgb_suffix),
        .createView sampleDepthTexture.id sampleDepthTexture.format,
        .beginRenderPass
          { color_attachments :=
              [some { view := 5
                      ops := { load := .clear Color.TRANSPARENT, store := .store } }]
            depth_stencil_attachment :=
              some { view := sampleDepthTexture.id
                     depth_ops := some { load := .clear 1, store := .store }
                     stencil_ops := some { load := .clear 0, store := .store } } },
        .setPipeline sampleState.pipeline.id,
        .setBindGroup 0,
        .setVertexBuffer 0,
        .draw 0 3 0 1,
        .endPass,
        .submit,
        .prePresentNotify,
        .present 5 ] ∧
    ∀ tr, sampleState.render (.ok 5) = .ok tr →
      tr.countP GpuEvent.isAcquire = 1 ∧
      tr.countP GpuEvent.isPresent = 1 ∧
      tr.countP GpuEvent.isSubmit = 1 ∧
      tr.getLast? = some (.present 5) ∧
      tr.head? = some (.acquireImage 5)) :=
  ⟨rfl, render_frame_order sampleState sampleDepthTexture 5 rfl⟩

/-- C5: the render pass recorded by `render` clears the color
attachment to fully transparent, clears depth to 1.0 and stencil to 0
with both attachments stored after the pass, binds the pipeline, binds
the (empty) bind group at index 0, binds the vertex buffer at slot 0 as
the sole vertex source, and issues exactly one draw of vertices 0..3
with instances 0..1. -/
theorem render_pass_contents (s : State) (dt : Texture) (texId : Nat)
    (h : s.depth_texture = some dt) :
    ∀ tr, s.render (.ok texId) = .ok tr →
      GpuEvent.beginRenderPass
        { color_attachments :=
            [some { view := texId
                    ops := { load := .clear Color.TRANSPARENT, store := .store } }]
          depth_stencil_attachment :=
            some { view := dt.id
                   depth_ops := some { load := .clear 1, store := .store }
                   stencil_ops := some { load := .clear 0, store := .store } } } ∈ tr ∧
      tr.countP GpuEvent.isBeginRenderPass = 1 ∧
      GpuEvent.setPipeline s.pipeline.id ∈ tr ∧
      GpuEvent.setBindGroup 0 ∈ tr ∧
      GpuEvent.setVertexBuffer 0 ∈ tr ∧
      tr.countP GpuEvent.isSetVertexBuffer = 1 ∧
      GpuEvent.draw 0 3 0 1 ∈ tr ∧
      tr.countP GpuEvent.isDraw = 1 := by
  intro tr htr
  have hr := htr
  simp only [State.render, h] at hr
  injection hr with hr
  subst hr
  refine ⟨?_, ?_, ?_, ?_, ?_, ?_, ?_, ?_⟩ <;>
    simp [List.countP_cons, GpuEvent.isBeginRenderPass,
      GpuEvent.isSetVertexBuffer, GpuEvent.isDraw]

theorem render_pass_contents_witness :
    sampleState.depth_texture = some sampleDepthTexture ∧
    (∀ tr, sampleState.render (.ok 5) = .ok tr →
      GpuEvent.beginRenderPass
        { color_attachments :=
            [some { view := 5
                    ops := { load := .clear Color.TRANSPARENT, store := .store } }]
          depth_stencil_attachment :=
            some { view := sampleDepthTexture.id
                   depth_ops := some { load := .clear 1, store := .store }
                   stencil_ops := some { load := .clear 0, store := .store } } } ∈ tr ∧
      tr.countP GpuEvent.isBeginRenderPass = 1 ∧
      GpuEvent.setPipeline sampleState.pipeline.id ∈ tr ∧
      GpuEvent.setBindGroup 0 ∈ tr ∧
      GpuEvent.setVertexBuffer 0 ∈ tr ∧
      tr.countP GpuEvent.isSetVertexBuffer = 1 ∧
      GpuEvent.draw 0 3 0 1 ∈ tr ∧
      tr.countP GpuEvent.isDraw = 1) :=
  ⟨rfl, render_pass_contents sampleState sampleDepthTexture 5 rfl⟩

/-- C9: on every reconfiguration with a previous depth texture present,
`configure_surface` issues the creation of the replacement depth
texture strictly before the release of the previous one (the release
happens at the overwrite of the stored field, after creation), and the
stored depth texture afterwards is the newly created one — there is no
point with the old attachment gone but no new one in place. -/
theorem configure_surface_release_order (s : State) (old : Texture)
    (h : s.depth_texture = some old) :
    (s.configure_surface).2 =
      [ .configureSurface s.surfaceConfigFor,
        .createTexture s.newDepthTexture,
        .releaseTexture old.id ] ∧
    (s.configure_surface).1.depth_texture = some s.newDepthTexture ∧
    (s.configure_surface).2.findIdx GpuEvent.isCreateTexture <
      (s.configure_surface).2.findIdx GpuEvent.isReleaseTexture := by
  have h2 : (s.configure_surface).2 =
      [ .configureSurface s.surfaceConfigFor,
        .createTexture s.newDepthTexture,
        .releaseTexture old.id ] := by
    simp [State.configure_surface, h]
  refine ⟨h2, by simp [configure_surface_fst], ?_⟩
  rw [h2]
  simp [List.findIdx_cons, GpuEvent.isCreateTexture, GpuEvent.isReleaseTexture,
    GpuEvent.isConfigureSurface]

theorem configure_surface_release_order_witness :
    sampleState.depth_texture = some sampleDepthTexture ∧
    ((sampleState.configure_surface).2 =
      [ .configureSurface sampleState.surfaceConfigFor,
        .createTexture sampleState.newDepthTexture,
        .releaseTexture sampleDepthTexture.id ] ∧
    (sampleState.configure_surface).1.depth_texture
        = some sampleState.newDepthTexture ∧
    (sampleState.configure_surface).2.findIdx GpuEvent.isCreateTexture <
      (sampleState.configure_surface).2.findIdx GpuEvent.isReleaseTexture) :=
  ⟨rfl, configure_surface_release_order sampleState sampleDepthTexture rfl⟩

/-- C6: the render pipeline is built exactly once, during `State::new`
(its creation trace holds exactly one pipeline-creation event), and is
never rebuilt afterwards: `resize` leaves the pipeline field untouched
and issues no pipeline-creation event, and any sequence of resizes
preserves the one pipeline. -/
theorem pipeline_built_once (a d : Option Unit) (formats : List TextureFormat)
    (sz : PhysicalSize) (s : State) (evs : List GpuEvent)
    (h : State.new a d formats sz = .ok (s, evs)) :
    evs.countP GpuEvent.isCreatePipeline = 1 ∧
    (∀ (st : State) (e : PhysicalSize),
      ((st.resize e).1).pipeline = st.pipeline ∧
      ((st.resize e).2).countP GpuEvent.isCreatePipeline = 0) ∧
    (∀ (st : State) (resizes : List PhysicalSize),
      (st.resizeAll resizes).pipeline = st.pipeline) := by
  refine ⟨?_, ?_, ?_⟩
  · cases a with
    | none => simp [State.new] at h
    | some u =>
      cases d with
      | none => simp [State.new] at h
      | some v =>
        cases formats with
        | nil => simp [State.new] at h
        | cons f rest =>
          injection h with h
          injection h with h1 h2
          rw [← h2]
          rfl
  · intro st e
    refine ⟨resize_fst_pipeline st e, ?_⟩
    rcases hd : st.depth_texture with _ | old <;>
      by_cases hp : e.width > 0 && e.height > 0 <;>
      simp [State.resize, hp, State.configure_surface, hd, List.countP_cons,
        GpuEvent.isCreatePipeline]
  · intro st resizes
    exact resizeAll_pipeline resizes st

theorem pipeline_built_once_witness :
    State.new (some ()) (some ()) [.bgra8Unorm] ⟨800, 600⟩
        = .ok (sampleState, sampleEvents) ∧
    (sampleEvents.countP GpuEvent.isCreatePipeline = 1 ∧
    (∀ (st : State) (e : PhysicalSize),
      ((st.resize e).1).pipeline = st.pipeline ∧
      ((st.resize e).2).countP GpuEvent.isCreatePipeline = 0) ∧
    (∀ (st : State) (resizes : List PhysicalSize),
      (st.resizeAll resizes).pipeline = st.pipeline)) :=
  ⟨rfl, pipeline_built_once (some ()) (some ()) [.bgra8Unorm] ⟨800, 600⟩
    sampleState sampleEvents rfl⟩

/-- C7: initialization selects the first format of the advertised
capability list as the surface color format, uses that same format for
the pipeline's color target and for every surface configuration it (or
a later resize) issues, and halts fatally when the adapter request, the
device request, or the capability list is empty. -/
theorem surface_format_first_capability
    (f : TextureFormat) (rest : List TextureFormat) (sz : PhysicalSize)
    (s : State) (evs : List GpuEvent)
    (h : State.new (some ()) (some ()) (f :: rest) sz = .ok (s, evs)) :
    s.surface_format = f ∧
    s.pipeline.desc.fragment_targets = [some { format := f }] ∧
    (∀ cfg, GpuEvent.configureSurface cfg ∈ evs → cfg.format = f) ∧
    (∀ (st : State) (e : PhysicalSize) (cfg : SurfaceConfiguration),
      GpuEvent.configureSurface cfg ∈ (st.resize e).2 →
        cfg.format = st.surface_format) ∧
    (∀ (d : Option Unit) (formats : List TextureFormat) (sz2 : PhysicalSize),
      State.new none d formats sz2 = .error .adapterRequestFailed) ∧
    (∀ (formats : List TextureFormat) (sz2 : PhysicalSize),
      State.new (some ()) none formats sz2 = .error .deviceRequestFailed) ∧
    (∀ sz2 : PhysicalSize,
      State.new (some ()) (some ()) [] sz2 = .error .noSurfaceFormat) := by
  injection h with h
  injection h with h1 h2
  refine ⟨by rw [← h1]; rfl, by rw [← h1]; rfl, ?_, ?_,
    fun _ _ _ => rfl, fun _ _ => rfl, fun _ => rfl⟩
  · intro cfg hc
    rw [← h2] at hc
    simp only [State.new, State.configure_surface, List.mem_cons,
      List.not_mem_nil, or_false, reduceCtorEq, false_or] at hc
    injection hc with hc
    subst hc
    rfl
  · intro st e cfg hc
    by_cases hp : e.width > 0 && e.height > 0
    · simp only [State.resize, hp, if_true] at hc
      rcases hd : st.depth_texture with _ | old <;>
        simp only [State.configure_surface, hd, List.mem_cons,
          List.not_mem_nil, or_false, reduceCtorEq, false_or] at hc <;>
        · injection hc with hc
          subst hc
          rfl
    · simp [State.resize, hp] at hc

theorem surface_format_first_capability_witness :
    State.new (some ()) (some ()) [.bgra8Unorm] ⟨800, 600⟩
        = .ok (sampleState, sampleEvents) ∧
    (sampleState.surface_format = .bgra8Unorm ∧
    sampleState.pipeline.desc.fragment_targets = [some { format := .bgra8Unorm }] ∧
    (∀ cfg, GpuEvent.configureSurface cfg ∈ sampleEvents → cfg.format = .bgra8Unorm) ∧
    (∀ (st : State) (e : PhysicalSize) (cfg : SurfaceConfiguration),
      GpuEvent.configureSurface cfg ∈ (st.resize e).2 →
        cfg.format = st.surface_format) ∧
    (∀ (d : Option Unit) (formats : List TextureFormat) (sz2 : PhysicalSize),
      State.new none d formats sz2 = .error .adapterRequestFailed) ∧
    (∀ (formats : List TextureFormat) (sz2 : PhysicalSize),
      State.new (some ()) none formats sz2 = .error .deviceRequestFailed) ∧
    (∀ sz2 : PhysicalSize,
      State.new (some ()) (some ()) [] sz2 = .error .noSurfaceFormat)) :=
  ⟨rfl, surface_format_first_capability .bgra8Unorm [] ⟨800, 600⟩
    sampleState sampleEvents rfl⟩

/-- C10: for any state produced by `State::new` (which unconditionally
calls `configure_surface`) and any subsequent sequence of resizes, the
`depth_texture` field is `some`, so on any successful acquisition
`render` never panics — the unwrap of `depth_texture` cannot fail and
no render-side error is possible once the external surface delivered an
image. -/
theorem depth_texture_always_present
    (a d : Option Unit) (formats : List TextureFormat) (sz : PhysicalSize)
    (s : State) (evs : List GpuEvent)
    (h : State.new a d formats sz = .ok (s, evs)) :
    ∀ (resizes : List PhysicalSize) (texId : Nat),
      (s.resizeAll resizes).depth_texture.isSome = true ∧
      ∀ e : RenderError,
        (s.resizeAll resizes).render (.ok texId) ≠ .error e := by
  have hsome : s.depth_texture.isSome = true := by
    cases a with
    | none => simp [State.new] at h
    | some u =>
      cases d with
      | none => simp [State.new] at h
      | some v =>
        cases formats with
        | nil => simp [State.new] at h
        | cons f rest =>
          injection h with h
          injection h with h1 h2
          rw [← h1]
          rfl
  intro resizes texId
  have h2 := resizeAll_depth_isSome resizes s hsome
  refine ⟨h2, ?_⟩
  intro e hne
  rcases hd : (s.resizeAll resizes).depth_texture with _ | dt
  · rw [hd] at h2
    simp at h2
  · rw [State.render] at hne
    simp [hd] at hne

theorem depth_texture_always_present_witness :
    State.new (some ()) (some ()) [.bgra8Unorm] ⟨800, 600⟩
        = .ok (sampleState, sampleEvents) ∧
    (∀ (resizes : List PhysicalSize) (texId : Nat),
      (sampleState.resizeAll resizes).depth_texture.isSome = true ∧
      ∀ e : RenderError,
        (sampleState.resizeAll resizes).render (.ok texId) ≠ .error e) :=
  ⟨rfl, depth_texture_always_present (some ()) (some ()) [.bgra8Unorm]
    ⟨800, 600⟩ sampleState sampleEvents rfl⟩
